import Mathlib

/-
Shallow embedding of the photo-diary backend
(src/photo-app/backend/public/script.js, the express server part).

External collaborators are modelled as explicit inputs:
  - the persisted photos.json file is a `StoreFile` value;
  - the JavaScript Date object obtained from a timestamp field is a
    `JSDate` (calendar year and 0-indexed month as exposed by
    getFullYear and getMonth; an unparsable string gives an invalid
    date whose accessors are NaN, which compares unequal to every
    number);
  - Math.random() is a rational draw r with 0 <= r < 1;
  - fs.readdir is an `Except` value (error or the list of names).
-/

/-- Result of feeding a timestamp to the JavaScript Date constructor:
either a valid date with a calendar year and a 0-indexed month in 0..11,
or an invalid date (NaN accessors). -/
inductive JSDate where
  | valid (year : Int) (month : Fin 12)
  | invalid
deriving DecidableEq, Repr

/-- Date built from 0, the fallback in new Date(p.uploadedAt or p.dateUploaded or 0):
the Unix epoch, local calendar year 1970, month 0. -/
def epochZero : JSDate := .valid 1970 0

/-- d.getFullYear() === yr for a JSDate d: NaN compares false. -/
def yearMatches : JSDate → Int → Bool
  | .valid y _, yr => y == yr
  | .invalid, _ => false

/-- d.getMonth() === m for a JSDate d: NaN compares false. -/
def monthMatches : JSDate → Int → Bool
  | .valid _ mo, m => ((mo : Nat) : Int) == m
  | .invalid, _ => false

/-- One entry of photos.json. Optional fields model the JavaScript
truthiness tests in the source: `none` stands for an absent or empty
field, `some .invalid` for a present but unparsable timestamp string. -/
structure PhotoRecord where
  filename : String
  url : Option String
  uploadedAt : Option JSDate
  dateUploaded : Option JSDate
deriving DecidableEq, Repr

/-- State of the photos.json file as the fs and JSON collaborators
present it to readPhotosList (script.js lines 77-85). -/
inductive StoreFile where
  /-- file does not exist: readFileSync throws -/
  | missing
  /-- file exists but cannot be read: readFileSync throws -/
  | unreadable
  /-- content is not valid JSON: JSON.parse throws -/
  | malformed
  /-- content parses as JSON but Array.isArray is false -/
  | jsonNonArray
  /-- content parses as a JSON array of records -/
  | jsonArray (items : List PhotoRecord)
deriving DecidableEq, Repr

/-- readPhotosList (script.js lines 77-85): try-read and JSON.parse;
any throw is caught and yields the empty list, a parsed non-array
yields the empty list, a parsed array is returned as is. -/
def readPhotosList : StoreFile → List PhotoRecord
  | .jsonArray items => items
  | _ => []

/-- writePhotosList (script.js lines 87-89): JSON.stringify the list and
overwrite the file; afterwards the file holds exactly that array
(the JSON stringify-parse round trip on records is the collaborator
assumption). -/
def writePhotosList (list : List PhotoRecord) : StoreFile := .jsonArray list

/-- new Date(p.uploadedAt or p.dateUploaded or 0) from script.js
lines 158 and 167: first truthy field, else the epoch. -/
def effDate (p : PhotoRecord) : JSDate :=
  match p.uploadedAt with
  | some d => d
  | none =>
    match p.dateUploaded with
    | some d => d
    | none => epochZero

/-- pick.uploadedAt or pick.dateUploaded from script.js line 173
(no epoch fallback there). -/
def effUploadedAt (p : PhotoRecord) : Option JSDate :=
  match p.uploadedAt with
  | some d => some d
  | none => p.dateUploaded

/-- pick.url or /photos/pick.filename (script.js line 173). -/
def urlOr (p : PhotoRecord) : String :=
  match p.url with
  | some u => u
  | none => "/photos/" ++ p.filename

/-- Month normalization from script.js line 165: accept both 0-11 and
1-12 inputs, mRaw greater than 11 becomes mRaw - 1, else unchanged. -/
def normalizeMonth (mRaw : Int) : Int :=
  if 11 < mRaw then mRaw - 1 else mRaw

/-- Year filter of the /random-photo handler (script.js lines 155-161);
`none` stands for an absent or empty query parameter. -/
def filterByYear : Option Int → List PhotoRecord → List PhotoRecord
  | none, l => l
  | some yr, l => l.filter fun p => yearMatches (effDate p) yr

/-- Month filter of the /random-photo handler (script.js lines 162-170). -/
def filterByMonth : Option Int → List PhotoRecord → List PhotoRecord
  | none, l => l
  | some mRaw, l => l.filter fun p => monthMatches (effDate p) (normalizeMonth mRaw)

/-- Candidate set of the /random-photo handler: year filter then month
filter applied to the loaded list (script.js lines 154-170). -/
def candidates (list : List PhotoRecord) (yr mo : Option Int) : List PhotoRecord :=
  filterByMonth mo (filterByYear yr list)

/-- ASCII lowercasing of one character, the case folding the
case-insensitive regex of script.js line 179 performs on its
(all-ASCII) alphabet. -/
def lowerChar (c : Char) : Char :=
  if 'A' ≤ c ∧ c ≤ 'Z' then Char.ofNat (c.toNat + 32) else c

/-- Test of the fallback regex on a directory entry
(case-insensitive extension jpg, jpeg, png, gif, webp, avif,
script.js line 179), computed over the character list. -/
def isImageFile (name : String) : Bool :=
  [".jpg", ".jpeg", ".png", ".gif", ".webp", ".avif"].any fun ext =>
    ext.data.isSuffixOf (name.data.map lowerChar)

/-- Math.floor(r * len) for a Math.random() draw r. -/
def pickIndex (r : ℚ) (len : Nat) : Nat :=
  (⌊r * (len : ℚ)⌋).toNat

/-- JSON body of a response of the backend. -/
inductive RBody where
  /-- an object of the shape error: msg -/
  | errorMsg (msg : String)
  /-- the whole stored record (script.js line 143) -/
  | fullRecord (p : PhotoRecord)
  /-- filename, url, uploadedAt of the filtered pick (script.js line 173) -/
  | filtered (filename : String) (url : String) (uploadedAt : Option JSDate)
  /-- filename and url only, from the filesystem fallback (script.js line 182) -/
  | fileOnly (filename : String) (url : String)
  /-- the created record (script.js line 199) -/
  | created (p : PhotoRecord)
  /-- message plus photo with filename and dateUploaded (script.js line 233) -/
  | uploadedMsg (message : String) (filename : String) (dateUploaded : Option JSDate)
  /-- res.json of an out-of-range array access -/
  | jsUndefined
deriving DecidableEq, Repr

/-- An HTTP response: status code and JSON body. -/
structure Response where
  status : Nat
  body : RBody
deriving DecidableEq, Repr

/-- GET /api/photos/random handler (script.js lines 139-144). -/
def apiPhotosRandom (store : StoreFile) (r : ℚ) : Response :=
  let list := readPhotosList store
  if list.length = 0 then ⟨404, .errorMsg "No photos"⟩
  else
    match list[pickIndex r list.length]? with
    | some pick => ⟨200, .fullRecord pick⟩
    | none => ⟨200, .jsUndefined⟩

/-- Filesystem fallback of the /random-photo handler
(script.js lines 177-183): readdir result, image filter, random pick. -/
def fallbackDir (dir : Except Unit (List String)) (r : ℚ) : Response :=
  match dir with
  | .error _ => ⟨500, .errorMsg "Failed to read photos"⟩
  | .ok files =>
    let imageFiles := files.filter isImageFile
    if imageFiles.length = 0 then ⟨404, .errorMsg "No photos yet"⟩
    else
      match imageFiles[pickIndex r imageFiles.length]? with
      | some f => ⟨200, .fileOnly f ("/photos/" ++ f)⟩
      | none => ⟨200, .jsUndefined⟩

/-- GET /random-photo handler (script.js lines 148-184): if the loaded
list is non-empty, filter and pick there; else fall back to the
uploads directory. -/
def randomPhoto (store : StoreFile) (yr mo : Option Int)
    (dir : Except Unit (List String)) (r : ℚ) : Response :=
  let list := readPhotosList store
  if list.length ≠ 0 then
    let filtered := candidates list yr mo
    if filtered.length = 0 then ⟨404, .errorMsg "No photos found for this filter"⟩
    else
      match filtered[pickIndex r filtered.length]? with
      | some pick => ⟨200, .filtered pick.filename (urlOr pick) (effUploadedAt pick)⟩
      | none => ⟨200, .jsUndefined⟩
  else fallbackDir dir r

/-- Outcome of the requireAdmin middleware. -/
inductive AuthOutcome where
  /-- res.status(500) Server missing ADMIN_TOKEN -/
  | misconfigured
  /-- res.status(401) Unauthorized -/
  | unauthorized
  /-- next() is called -/
  | authorized
deriving DecidableEq, Repr

/-- Token extraction of requireAdmin (script.js lines 126-127): the
authorization header or the empty string, stripped of a leading
Bearer-and-space when present. `none` stands for an absent header. -/
def presentedToken (authHeader : Option String) : String :=
  let header := authHeader.getD ""
  if ("Bearer ".data).isPrefixOf header.data then String.mk (header.data.drop 7)
  else header

/-- requireAdmin middleware (script.js lines 124-130). The configured
ADMIN_TOKEN is `none` when the environment variable is unset or empty
(script.js line 31). -/
def requireAdmin (adminToken : Option String) (authHeader : Option String) : AuthOutcome :=
  match adminToken with
  | none => .misconfigured
  | some secret =>
    if presentedToken authHeader = secret then .authorized else .unauthorized

/-- POST /api/photos/upload handler chain (script.js lines 188-200):
requireAdmin, then the saved multipart file (its generated name, or
`none` when no file was sent), then append-and-write. Returns the
response and the resulting store file. -/
def apiPhotosUpload (adminToken authHeader : Option String) (file : Option String)
    (now : JSDate) (store : StoreFile) : Response × StoreFile :=
  match requireAdmin adminToken authHeader with
  | .misconfigured => (⟨500, .errorMsg "Server missing ADMIN_TOKEN"⟩, store)
  | .unauthorized => (⟨401, .errorMsg "Unauthorized"⟩, store)
  | .authorized =>
    match file with
    | none => (⟨400, .errorMsg "No file uploaded"⟩, store)
    | some fn =>
      let list := readPhotosList store
      let item : PhotoRecord :=
        { filename := fn
          url := some ("/uploads/" ++ fn)
          uploadedAt := some now
          dateUploaded := none }
      (⟨201, .created item⟩, writePhotosList (list ++ [item]))

/-- POST /upload handler (script.js lines 203-234): open route, no
auth; append-and-write with the dateUploaded legacy alias set. -/
def publicUpload (file : Option String) (now : JSDate) (store : StoreFile) :
    Response × StoreFile :=
  match file with
  | none => (⟨400, .errorMsg "No file uploaded"⟩, store)
  | some fn =>
    let list := readPhotosList store
    let item : PhotoRecord :=
      { filename := fn
        url := some ("/photos/" ++ fn)
        uploadedAt := some now
        dateUploaded := some now }
    (⟨200, .uploadedMsg "Photo uploaded!" fn (some now)⟩, writePhotosList (list ++ [item]))

/-- A concrete January-2024 record used by witnesses and counterexamples. -/
def janRec : PhotoRecord :=
  { filename := "a.jpg", url := none
    uploadedAt := some (.valid 2024 0), dateUploaded := none }

/-- A pick at draw 0 is the head index. -/
lemma pickIndex_zero (n : Nat) : pickIndex 0 n = 0 := by
  simp [pickIndex]

/-- Math.floor(r * len) is in bounds for a draw r in the unit interval
and a positive length. -/
lemma pickIndex_lt (r : ℚ) (n : Nat) (h0 : 0 ≤ r) (h1 : r < 1) (hn : 0 < n) :
    pickIndex r n < n := by
  have hnn : (0 : ℚ) < (n : ℚ) := by exact_mod_cast hn
  have hmul : r * (n : ℚ) < (n : ℚ) := by
    calc r * (n : ℚ) < 1 * (n : ℚ) := by exact mul_lt_mul_of_pos_right h1 hnn
    _ = (n : ℚ) := one_mul _
  have hf1 : 0 ≤ ⌊r * (n : ℚ)⌋ := Int.floor_nonneg.mpr (mul_nonneg h0 (le_of_lt hnn))
  have hf2 : ⌊r * (n : ℚ)⌋ < (n : Int) := Int.floor_lt.mpr (by exact_mod_cast hmul)
  unfold pickIndex
  omega

/-- Indexing a non-empty list at the random pick yields some member. -/
lemma pick_spec {α : Type} (l : List α) (r : ℚ) (h0 : 0 ≤ r) (h1 : r < 1)
    (hl : l ≠ []) : ∃ p ∈ l, l[pickIndex r l.length]? = some p := by
  have hlen : 0 < l.length := List.length_pos.mpr hl
  have hi := pickIndex_lt r l.length h0 h1 hlen
  refine ⟨l.get ⟨pickIndex r l.length, hi⟩, List.get_mem _ _ _, ?_⟩
  rw [List.getElem?_eq_getElem hi]
  rfl

/-- Membership in the month-filtered list implies membership in the input. -/
lemma mem_of_filterByMonth (mo : Option Int) (l : List PhotoRecord) (p : PhotoRecord)
    (hp : p ∈ filterByMonth mo l) : p ∈ l := by
  cases mo with
  | none => exact hp
  | some m => exact (List.mem_filter.mp hp).1

/-- Membership in the year-filtered list implies membership in the input. -/
lemma mem_of_filterByYear (yr : Option Int) (l : List PhotoRecord) (p : PhotoRecord)
    (hp : p ∈ filterByYear yr l) : p ∈ l := by
  cases yr with
  | none => exact hp
  | some y => exact (List.mem_filter.mp hp).1

/-- A member of the year-filtered list has the filtered year. -/
lemma year_of_filterByYear (y : Int) (l : List PhotoRecord) (p : PhotoRecord)
    (hp : p ∈ filterByYear (some y) l) : yearMatches (effDate p) y = true :=
  (List.mem_filter.mp hp).2

/-- C1: for every month filter value m of the /random-photo selection,
m greater than 11 is normalized to m - 1 and m between 0 and 11 is used
unchanged, and a record is kept by the month filter exactly when its
effective timestamp has that 0-indexed month. -/
theorem month_filter_normalized (m : Int) (l : List PhotoRecord) (p : PhotoRecord) :
    (11 < m →
      (p ∈ filterByMonth (some m) l ↔
        p ∈ l ∧ monthMatches (effDate p) (m - 1) = true)) ∧
    (0 ≤ m → m ≤ 11 →
      (p ∈ filterByMonth (some m) l ↔
        p ∈ l ∧ monthMatches (effDate p) m = true)) := by
  constructor
  · intro hm
    simp [filterByMonth, normalizeMonth, List.mem_filter, hm]
  · intro h0 h11
    have hnot : ¬11 < m := by omega
    simp [filterByMonth, normalizeMonth, List.mem_filter, hnot]

/-- Witness for C1 at m = 13 and m = 0 on a one-record list. -/
theorem month_filter_normalized_witness :
    ((janRec ∈ filterByMonth (some 13) [janRec]) ↔
      janRec ∈ [janRec] ∧ monthMatches (effDate janRec) (13 - 1) = true) ∧
    ((janRec ∈ filterByMonth (some 0) [janRec]) ↔
      janRec ∈ [janRec] ∧ monthMatches (effDate janRec) 0 = true) := by
  constructor
  · exact (month_filter_normalized 13 [janRec] janRec).1 (by norm_num)
  · exact (month_filter_normalized 0 [janRec] janRec).2 (by norm_num) (by norm_num)

/-- C2 counterexample: on a list with one January record, the candidate
set under month=13 differs from the candidate set under month=0 (13 is
normalized to 12, which no 0-indexed month ever equals, while month=0
keeps the January record). -/
theorem month13_ne_month0 :
    candidates [janRec] none (some 13) ≠ candidates [janRec] none (some 0) := by
  decide

/-- C2 amended: the filtered selection with month=13 produces the empty
candidate set for every record list and every year filter, because 13
is normalized to 12 and no effective timestamp has 0-indexed month 12;
it therefore does not behave like month=0 on lists with January records. -/
theorem month13_candidates_empty (l : List PhotoRecord) (yr : Option Int) :
    candidates l yr (some 13) = [] := by
  unfold candidates filterByMonth
  rw [List.filter_eq_nil_iff]
  intro p _
  cases h : effDate p with
  | valid y mo =>
    have hlt : (mo : Nat) < 12 := mo.isLt
    simp only [monthMatches, normalizeMonth, h]
    norm_num
    omega
  | invalid => simp [monthMatches, h]

/-- C5: with no configured secret the guard reports the distinct
misconfigured outcome (500) rather than denying or allowing; otherwise
the presented token is the remainder after a Bearer-and-space marker
when the header starts with it, else the raw header, and authorization
succeeds exactly when that token equals the secret, denying with 401
otherwise. -/
theorem requireAdmin_spec :
    (∀ h : Option String, requireAdmin none h = .misconfigured) ∧
    (∀ rest : String, presentedToken (some ("Bearer " ++ rest)) = rest) ∧
    (∀ s : String, ("Bearer ".data).isPrefixOf s.data = false →
      presentedToken (some s) = s) ∧
    (∀ (secret : String) (h : Option String),
      requireAdmin (some secret) h = .authorized ↔ presentedToken h = secret) ∧
    (∀ (secret : String) (h : Option String),
      presentedToken h ≠ secret → requireAdmin (some secret) h = .unauthorized) := by
  refine ⟨fun _ => rfl, ?_, ?_, ?_, ?_⟩
  · intro rest
    have hpre : ("Bearer ".data).isPrefixOf ("Bearer " ++ rest).data = true := by
      rw [String.data_append, List.isPrefixOf_iff_prefix]
      exact List.prefix_append _ _
    have hdrop : ("Bearer " ++ rest).data.drop 7 = rest.data := by
      rw [String.data_append, show (7 : Nat) = "Bearer ".data.length from rfl]
      exact List.drop_left _ _
    simp [presentedToken, hpre, hdrop]
  · intro s hs
    simp [presentedToken, hs]
  · intro secret h
    by_cases hc : presentedToken h = secret
    · simp [requireAdmin, hc]
    · simp [requireAdmin, hc]
  · intro secret h hne
    simp [requireAdmin, hne]

/-- Witness for C5 on concrete headers and secrets. -/
theorem requireAdmin_spec_witness :
    requireAdmin none (some "Bearer s") = .misconfigured ∧
    presentedToken (some ("Bearer " ++ "tok")) = "tok" ∧
    presentedToken (some "raw") = "raw" ∧
    (requireAdmin (some "s") (some "Bearer s") = .authorized ↔
      presentedToken (some "Bearer s") = "s") ∧
    requireAdmin (some "s") (some "bad") = .unauthorized := by
  refine ⟨?_, ?_, ?_, ?_, ?_⟩
  · exact requireAdmin_spec.1 (some "Bearer s")
  · exact requireAdmin_spec.2.1 "tok"
  · exact requireAdmin_spec.2.2.1 "raw" (by decide)
  · exact requireAdmin_spec.2.2.2.1 "s" (some "Bearer s")
  · exact requireAdmin_spec.2.2.2.2 "s" (some "bad") (by decide)

/-- C7: the load path returns the empty list, rather than failing, on a
missing file, an unreadable file, malformed content, and content that
parses as JSON but is not an array; on every store state it returns
some list (total, never raises). -/
theorem readPhotosList_resilient :
    readPhotosList .missing = [] ∧
    readPhotosList .unreadable = [] ∧
    readPhotosList .malformed = [] ∧
    readPhotosList .jsonNonArray = [] ∧
    (∀ s : StoreFile, (∀ l : List PhotoRecord, s ≠ .jsonArray l) →
      readPhotosList s = []) ∧
    (∀ s : StoreFile, ∃ l : List PhotoRecord, readPhotosList s = l) := by
  refine ⟨rfl, rfl, rfl, rfl, ?_, fun s => ⟨readPhotosList s, rfl⟩⟩
  intro s hs
  cases s with
  | missing => rfl
  | unreadable => rfl
  | malformed => rfl
  | jsonNonArray => rfl
  | jsonArray l => exact absurd rfl (hs l)

/-- Witness for C7 at the non-array store states. -/
theorem readPhotosList_resilient_witness :
    readPhotosList .jsonNonArray = [] :=
  readPhotosList_resilient.2.2.2.2.1 .jsonNonArray (fun l h => by cases h)

/-- C9: writing back the loaded list leaves the loaded content
unchanged, for every persisted store state. -/
theorem save_load_roundtrip (s : StoreFile) :
    readPhotosList (writePhotosList (readPhotosList s)) = readPhotosList s := by
  cases s <;> rfl

/-- C8: on an empty store the unfiltered random endpoint answers 404
with error No photos; on a non-empty store, for every draw in the unit
interval, it returns some record that is an exact element of the
loaded list (the picked index is always in bounds). -/
theorem apiPhotosRandom_spec :
    (∀ (store : StoreFile) (r : ℚ), readPhotosList store = [] →
      apiPhotosRandom store r = ⟨404, .errorMsg "No photos"⟩) ∧
    (∀ (store : StoreFile) (r : ℚ), 0 ≤ r → r < 1 → readPhotosList store ≠ [] →
      ∃ p ∈ readPhotosList store, apiPhotosRandom store r = ⟨200, .fullRecord p⟩) := by
  constructor
  · intro store r hempty
    simp [apiPhotosRandom, hempty]
  · intro store r h0 h1 hne
    obtain ⟨p, hp, hidx⟩ := pick_spec (readPhotosList store) r h0 h1 hne
    have hlen : ¬(readPhotosList store).length = 0 := by
      simpa [List.length_eq_zero] using hne
    exact ⟨p, hp, by simp [apiPhotosRandom, hlen, hidx]⟩

/-- Witness for C8 on an empty store and a one-record store at draw 0. -/
theorem apiPhotosRandom_spec_witness :
    apiPhotosRandom .missing 0 = ⟨404, .errorMsg "No photos"⟩ ∧
    ∃ p ∈ readPhotosList (.jsonArray [janRec]),
      apiPhotosRandom (.jsonArray [janRec]) 0 = ⟨200, .fullRecord p⟩ := by
  constructor
  · exact apiPhotosRandom_spec.1 .missing 0 rfl
  · exact apiPhotosRandom_spec.2 (.jsonArray [janRec]) 0 (by norm_num) (by norm_num)
      (by decide)

/-- C3: on a non-empty store filtered to nothing, /random-photo answers
404 with error No photos found for this filter; on an empty store it
ignores the filters entirely and runs the filesystem fallback, which
answers 500 on a directory read failure, 404 with error No photos yet
when no entry has a recognized image extension, and otherwise picks an
image file and returns only its name and the derived /photos url. -/
theorem randomPhoto_filter_and_fallback (store : StoreFile) (yr mo : Option Int)
    (dir : Except Unit (List String)) (r : ℚ) :
    (readPhotosList store ≠ [] → candidates (readPhotosList store) yr mo = [] →
      randomPhoto store yr mo dir r =
        ⟨404, .errorMsg "No photos found for this filter"⟩) ∧
    (readPhotosList store = [] → randomPhoto store yr mo dir r = fallbackDir dir r) ∧
    (dir = .error () → fallbackDir dir r = ⟨500, .errorMsg "Failed to read photos"⟩) ∧
    (∀ files, dir = .ok files → files.filter isImageFile = [] →
      fallbackDir dir r = ⟨404, .errorMsg "No photos yet"⟩) ∧
    (∀ files, dir = .ok files → files.filter isImageFile ≠ [] → 0 ≤ r → r < 1 →
      ∃ f ∈ files.filter isImageFile,
        fallbackDir dir r = ⟨200, .fileOnly f ("/photos/" ++ f)⟩) := by
  refine ⟨?_, ?_, ?_, ?_, ?_⟩
  · intro hne hcand
    have hlen : ¬(readPhotosList store).length = 0 := by
      simpa [List.length_eq_zero] using hne
    simp [randomPhoto, hlen, hcand]
  · intro hempty
    simp [randomPhoto, hempty]
  · intro hdir
    subst hdir
    rfl
  · intro files hdir hfil
    subst hdir
    simp [fallbackDir, hfil]
  · intro files hdir hfil h0 h1
    subst hdir
    obtain ⟨f, hf, hidx⟩ := pick_spec (files.filter isImageFile) r h0 h1 hfil
    have hlen : ¬(files.filter isImageFile).length = 0 := by
      simpa [List.length_eq_zero] using hfil
    exact ⟨f, hf, by simp [fallbackDir, hlen, hidx]⟩

/-- Witness for C3: a filtered-empty store, an empty-store fallback with
mixed directory entries, a failing directory read, and a directory with
no image files. -/
theorem randomPhoto_filter_and_fallback_witness :
    randomPhoto (.jsonArray [janRec]) (some 1999) none (.ok []) 0 =
      ⟨404, .errorMsg "No photos found for this filter"⟩ ∧
    randomPhoto .missing (some 5) (some 3) (.ok ["x.jpg", "y.txt"]) 0 =
      fallbackDir (.ok ["x.jpg", "y.txt"]) 0 ∧
    fallbackDir (.error ()) 0 = ⟨500, .errorMsg "Failed to read photos"⟩ ∧
    fallbackDir (.ok ["y.txt"]) 0 = ⟨404, .errorMsg "No photos yet"⟩ ∧
    ∃ f ∈ (["x.jpg", "y.txt"].filter isImageFile),
      fallbackDir (.ok ["x.jpg", "y.txt"]) 0 = ⟨200, .fileOnly f ("/photos/" ++ f)⟩ := by
  refine ⟨?_, ?_, ?_, ?_, ?_⟩
  · exact (randomPhoto_filter_and_fallback (.jsonArray [janRec]) (some 1999) none
      (.ok []) 0).1 (by decide) (by decide)
  · exact (randomPhoto_filter_and_fallback .missing (some 5) (some 3)
      (.ok ["x.jpg", "y.txt"]) 0).2.1 rfl
  · exact (randomPhoto_filter_and_fallback .missing none none (.error ()) 0).2.2.1 rfl
  · exact (randomPhoto_filter_and_fallback .missing none none (.ok ["y.txt"]) 0).2.2.2.1
      ["y.txt"] rfl (by decide)
  · exact (randomPhoto_filter_and_fallback .missing none none (.ok ["x.jpg", "y.txt"])
      0).2.2.2.2 ["x.jpg", "y.txt"] rfl (by decide) (by norm_num) (by norm_num)

/-- C4: with a year filter Y, every candidate record's effective
timestamp has calendar year Y; year and month filters narrow the same
candidate set conjunctively; any record the handler returns under a
year filter is a stored record of year Y; and a non-empty list
filtered to nothing yields the no-match 404, never a crash. -/
theorem year_filter_spec (Y : Int) :
    (∀ (l : List PhotoRecord) (mo : Option Int),
      ∀ p ∈ candidates l (some Y) mo, yearMatches (effDate p) Y = true) ∧
    (∀ (l : List PhotoRecord) (m : Int),
      candidates l (some Y) (some m) =
        l.filter fun p =>
          yearMatches (effDate p) Y && monthMatches (effDate p) (normalizeMonth m)) ∧
    (∀ (store : StoreFile) (mo : Option Int) (dir : Except Unit (List String))
        (r : ℚ) (fn u : String) (up : Option JSDate),
      randomPhoto store (some Y) mo dir r = ⟨200, .filtered fn u up⟩ →
      ∃ p ∈ readPhotosList store,
        yearMatches (effDate p) Y = true ∧ fn = p.filename) ∧
    (∀ (store : StoreFile) (mo : Option Int) (dir : Except Unit (List String)) (r : ℚ),
      readPhotosList store ≠ [] →
      candidates (readPhotosList store) (some Y) mo = [] →
      randomPhoto store (some Y) mo dir r =
        ⟨404, .errorMsg "No photos found for this filter"⟩) := by
  refine ⟨?_, ?_, ?_, ?_⟩
  · intro l mo p hp
    exact year_of_filterByYear Y l p (mem_of_filterByMonth mo _ p hp)
  · intro l m
    simp only [candidates, filterByYear, filterByMonth]
    rw [List.filter_filter]
    exact List.filter_congr fun p _ => Bool.and_comm _ _
  · intro store mo dir r fn u up hresp
    by_cases hlen : (readPhotosList store).length = 0
    · rw [randomPhoto] at hresp
      simp only [hlen, ne_eq, not_true_eq_false, if_false] at hresp
      exfalso
      rcases dir with e | files
      · simp [fallbackDir] at hresp
      · rw [fallbackDir] at hresp
        by_cases hf : (files.filter isImageFile).length = 0
        · simp [hf] at hresp
        · simp only [hf, if_neg, if_false] at hresp
          rcases hidx : (files.filter isImageFile)[pickIndex r
              (files.filter isImageFile).length]? with _ | f
          · simp [hidx] at hresp
          · simp [hidx] at hresp
    · rw [randomPhoto] at hresp
      simp only [hlen, ne_eq, not_false_eq_true, if_true] at hresp
      by_cases hc : (candidates (readPhotosList store) (some Y) mo).length = 0
      · simp [hc] at hresp
      · simp only [hc, if_false] at hresp
        rcases hidx : (candidates (readPhotosList store) (some Y) mo)[pickIndex r
            (candidates (readPhotosList store) (some Y) mo).length]? with _ | pick
        · simp [hidx] at hresp
        · simp only [hidx] at hresp
          have hmem : pick ∈ candidates (readPhotosList store) (some Y) mo := by
            obtain ⟨hi, rfl⟩ := List.getElem?_eq_some.mp hidx
            exact List.getElem_mem hi
          have hyear : yearMatches (effDate pick) Y = true :=
            year_of_filterByYear Y _ pick (mem_of_filterByMonth mo _ pick hmem)
          have hfn : pick.filename = fn := by
            have := hresp
            simp only [Response.mk.injEq, RBody.filtered.injEq] at this
            exact this.2.1
          exact ⟨pick, mem_of_filterByYear (some Y) _ pick
            (mem_of_filterByMonth mo _ pick hmem), hyear, hfn.symm⟩
  · intro store mo dir r hne hcand
    have hlen : ¬(readPhotosList store).length = 0 := by
      simpa [List.length_eq_zero] using hne
    simp [randomPhoto, hlen, hcand]

/-- Witness for C4 at year 2024 on a one-record store. -/
theorem year_filter_spec_witness :
    yearMatches (effDate janRec) 2024 = true ∧
    (∃ p ∈ readPhotosList (.jsonArray [janRec]),
      yearMatches (effDate p) 2024 = true ∧ "a.jpg" = p.filename) ∧
    randomPhoto (.jsonArray [janRec]) (some 1998) none (.ok []) (1/2) =
      ⟨404, .errorMsg "No photos found for this filter"⟩ := by
  refine ⟨?_, ?_, ?_⟩
  · exact (year_filter_spec 2024).1 [janRec] none janRec (by decide)
  · have hresp : randomPhoto (.jsonArray [janRec]) (some 2024) (some 0) (.ok []) 0 =
        ⟨200, .filtered "a.jpg" "/photos/a.jpg" (some (.valid 2024 0))⟩ := by
      have hc : candidates (readPhotosList (.jsonArray [janRec])) (some 2024) (some 0) =
          [janRec] := by decide
      simp [randomPhoto, hc, pickIndex_zero]
      decide
    exact (year_filter_spec 2024).2.2.1 (.jsonArray [janRec]) (some 0) (.ok []) 0
      "a.jpg" "/photos/a.jpg" (some (.valid 2024 0)) hresp
  · exact (year_filter_spec 1998).2.2.2 (.jsonArray [janRec]) none (.ok []) (1/2)
      (by decide) (by decide)

/-- C6: a successful upload persists exactly the previously loaded list
with one new record appended, whose filename is the saved name and
whose uploadedAt is the current instant; the admin route derives the
/uploads url and sets no dateUploaded, the open route derives the
/photos url and sets the legacy dateUploaded alias equal to uploadedAt. -/
theorem upload_appends (adminToken authHeader : Option String) (f : String)
    (now : JSDate) (store : StoreFile) :
    (requireAdmin adminToken authHeader = .authorized →
      apiPhotosUpload adminToken authHeader (some f) now store =
        (⟨201, .created (PhotoRecord.mk f (some ("/uploads/" ++ f)) (some now) none)⟩,
         writePhotosList (readPhotosList store ++
           [PhotoRecord.mk f (some ("/uploads/" ++ f)) (some now) none]))) ∧
    publicUpload (some f) now store =
      (⟨200, .uploadedMsg "Photo uploaded!" f (some now)⟩,
       writePhotosList (readPhotosList store ++
         [PhotoRecord.mk f (some ("/photos/" ++ f)) (some now) (some now)])) := by
  constructor
  · intro hauth
    simp [apiPhotosUpload, hauth]
  · rfl

/-- Witness for C6: an authorized admin upload and an open upload on a
concrete store. -/
theorem upload_appends_witness :
    apiPhotosUpload (some "s") (some "Bearer s") (some "f.jpg") (.valid 2025 3)
        (.jsonArray [janRec]) =
      (⟨201, .created (PhotoRecord.mk "f.jpg" (some ("/uploads/" ++ "f.jpg"))
          (some (.valid 2025 3)) none)⟩,
       writePhotosList (readPhotosList (.jsonArray [janRec]) ++
         [PhotoRecord.mk "f.jpg" (some ("/uploads/" ++ "f.jpg"))
           (some (.valid 2025 3)) none])) ∧
    publicUpload (some "f.jpg") (.valid 2025 3) (.jsonArray [janRec]) =
      (⟨200, .uploadedMsg "Photo uploaded!" "f.jpg" (some (.valid 2025 3))⟩,
       writePhotosList (readPhotosList (.jsonArray [janRec]) ++
         [PhotoRecord.mk "f.jpg" (some ("/photos/" ++ "f.jpg"))
           (some (.valid 2025 3)) (some (.valid 2025 3))])) := by
  constructor
  · exact (upload_appends (some "s") (some "Bearer s") "f.jpg" (.valid 2025 3)
      (.jsonArray [janRec])).1 (by decide)
  · exact (upload_appends (some "s") (some "Bearer s") "f.jpg" (.valid 2025 3)
      (.jsonArray [janRec])).2

/-- C10: every rejected upload request leaves the persisted store
exactly unchanged: admin route with no configured secret (500), admin
route with a non-matching token (401), authorized admin request or open
request with no file (400). -/
theorem reject_leaves_store (authHeader : Option String) (file : Option String)
    (now : JSDate) (store : StoreFile) :
    (apiPhotosUpload none authHeader file now store =
      (⟨500, .errorMsg "Server missing ADMIN_TOKEN"⟩, store)) ∧
    (∀ secret : String, presentedToken authHeader ≠ secret →
      apiPhotosUpload (some secret) authHeader file now store =
        (⟨401, .errorMsg "Unauthorized"⟩, store)) ∧
    (∀ adminToken : Option String, requireAdmin adminToken authHeader = .authorized →
      apiPhotosUpload adminToken authHeader none now store =
        (⟨400, .errorMsg "No file uploaded"⟩, store)) ∧
    publicUpload none now store = (⟨400, .errorMsg "No file uploaded"⟩, store) := by
  refine ⟨rfl, ?_, ?_, rfl⟩
  · intro secret hne
    simp [apiPhotosUpload, requireAdmin, hne]
  · intro adminToken hauth
    simp [apiPhotosUpload, hauth]

/-- Witness for C10 on concrete rejected requests. -/
theorem reject_leaves_store_witness :
    apiPhotosUpload none (some "x") (some "f.jpg") (.valid 2025 3)
        (.jsonArray [janRec]) =
      (⟨500, .errorMsg "Server missing ADMIN_TOKEN"⟩, .jsonArray [janRec]) ∧
    apiPhotosUpload (some "s") (some "bad") (some "f.jpg") (.valid 2025 3)
        (.jsonArray [janRec]) =
      (⟨401, .errorMsg "Unauthorized"⟩, .jsonArray [janRec]) ∧
    apiPhotosUpload (some "s") (some "Bearer s") none (.valid 2025 3)
        (.jsonArray [janRec]) =
      (⟨400, .errorMsg "No file uploaded"⟩, .jsonArray [janRec]) ∧
    publicUpload none (.valid 2025 3) (.jsonArray [janRec]) =
      (⟨400, .errorMsg "No file uploaded"⟩, .jsonArray [janRec]) := by
  refine ⟨?_, ?_, ?_, ?_⟩
  · exact (reject_leaves_store (some "x") (some "f.jpg") (.valid 2025 3)
      (.jsonArray [janRec])).1
  · exact (reject_leaves_store (some "bad") (some "f.jpg") (.valid 2025 3)
      (.jsonArray [janRec])).2.1 "s" (by decide)
  · exact (reject_leaves_store (some "Bearer s") none (.valid 2025 3)
      (.jsonArray [janRec])).2.2.1 (some "s") (by decide)
  · exact (reject_leaves_store (some "x") none (.valid 2025 3)
      (.jsonArray [janRec])).2.2.2
